import Mathlib

/-!
Verification development for the `omics-ai-explorer` Python client library.

The repository ships documentation (README, CHANGELOG, a notebook) for a thin
HTTP client (`omics_ai.OmicsAIClient`) over Explorer REST services.  The client
module itself is not part of the distributed sources here, so every definition
below that embeds client behaviour is modelled from the specification and the
README, and says so in its doc comment.
-/

/-- Modelled from the spec: a Python value supplied by a caller of
`simple_query` (the `**kwargs` values).  The value-type tag of a filter clause
is inferred from which Python type the value has, so the embedding keeps the
type tag in the constructor.  Floats are carried opaquely by their textual
representation; no arithmetic is performed on them. -/
inductive PyValue where
  | str (s : String)
  | int (n : Int)
  | float (repr : String)
  | bool (b : Bool)
deriving DecidableEq, Repr

/-- Modelled from the spec: JSON values, the shape of request bodies and
response envelopes.  Numbers that matter to the claims (counts, limits,
offsets, positions) are integers; non-integer numbers are carried opaquely. -/
inductive Json where
  | null
  | bool (b : Bool)
  | num (n : Int)
  | fnum (repr : String)
  | str (s : String)
  | arr (elems : List Json)
  | obj (fields : List (String × Json))
deriving Repr

/-- Modelled from the spec: one filter clause of the JSON filter structure,
`\x7b"operation": ..., "value": ..., "type": ...\x7d`.  Operation and type are
strings in the wire format, so the embedding keeps them as strings and
validates them against the documented enumerations. -/
structure FilterClause where
  operation : String
  value : PyValue
  type : String
deriving DecidableEq, Repr

/-- Filters: a mapping from field name to an ordered sequence of clauses,
represented as an association list (the Python dict). -/
abbrev Filters := List (String × List FilterClause)

/-- The documented enumeration of filter operations (README, Filter
Operations). -/
def FILTER_OPERATIONS : List String :=
  ["EQ", "NEQ", "GT", "GTE", "LT", "LTE", "LIKE", "REGEX", "BETWEEN", "NULL", "NOT_NULL"]

/-- The documented enumeration of value-type tags (README, Data Types). -/
def VALUE_TYPES : List String :=
  ["STRING", "INTEGER", "FLOAT", "BOOLEAN", "DATE", "DATE-TIME"]

/-- Modelled from the spec: a clause is valid when its operation and its
value-type tag both belong to the documented enumerations. -/
def validClause (c : FilterClause) : Bool :=
  FILTER_OPERATIONS.contains c.operation && VALUE_TYPES.contains c.type

/-- Modelled from the spec: local validation of a whole filter mapping. -/
def validFilters (fs : Filters) : Bool :=
  fs.all (fun p => p.2.all validClause)

/-- Static mapping from short network aliases to fully-qualified domains
(README, Supported Networks). -/
def NETWORKS : List (String × String) :=
  [("hifisolves", "hifisolves.org"),
   ("neuroscience", "neuroscience.ai"),
   ("parkinsons", "cloud.parkinsonsroadmap.org"),
   ("biomedical", "biomedical.ai")]

/-- Modelled from the spec: resolve a network alias.  A known short name maps
to its fully-qualified domain; any other string passes through unchanged. -/
def resolve_network (network : String) : String :=
  match NETWORKS.lookup network with
  | some domain => domain
  | none => network

/-- Modelled from the spec: the client session state — resolved base URL,
optional bearer token, default timeout (seconds). -/
structure OmicsAIClient where
  base_url : String
  access_token : Option String
  timeout : Nat
deriving DecidableEq, Repr

/-- Default request timeout, a fixed constant of the client. -/
def DEFAULT_TIMEOUT : Nat := 30

/-- Default query page size (spec: a fixed positive value such as 100). -/
def DEFAULT_LIMIT : Nat := 100

/-- Modelled from the spec: construct a client for a network alias or domain,
with an optional access token and a timeout. -/
def mkClient (network : String) (access_token : Option String) (timeout : Nat) :
    OmicsAIClient :=
  { base_url := "https://" ++ resolve_network network
    access_token := access_token
    timeout := timeout }

/-- Modelled from the spec: `set_access_token` replaces the token and touches
nothing else. -/
def OmicsAIClient.set_access_token (c : OmicsAIClient) (token : String) : OmicsAIClient :=
  { c with access_token := some token }

/-- Modelled from the spec: `clear_access_token` drops the token and touches
nothing else. -/
def OmicsAIClient.clear_access_token (c : OmicsAIClient) : OmicsAIClient :=
  { c with access_token := none }

/-- Modelled from the spec: request headers.  `Content-Type: application/json`
always; `Authorization: Bearer <token>` exactly when a token is set. -/
def OmicsAIClient.headers (c : OmicsAIClient) : List (String × String) :=
  ("Content-Type", "application/json") ::
    (match c.access_token with
     | some token => [("Authorization", "Bearer " ++ token)]
     | none => [])

/-- Kinds of connectivity failure of the transport. -/
inductive NetFailureKind where
  | timeout
  | dnsFailure
  | connectionRefused
deriving DecidableEq, Repr

/-- Modelled from the spec: the error taxonomy surfaced to callers.
`authenticationError` and `networkError` model the Python subclasses
`AuthenticationError` and `NetworkError`; `omicsAIError` models the base
`OmicsAIError`, raised on any other non-success status, on malformed bodies,
and on local filter validation failure. -/
inductive ClientError where
  | authenticationError (status : Nat)
  | networkError (kind : NetFailureKind)
  | omicsAIError (status : Nat) (message : String)
deriving DecidableEq, Repr

/-- An HTTP request as the client assembles it. -/
structure HttpRequest where
  method : String
  url : String
  headers : List (String × String)
  body : Option Json
  timeout : Nat
deriving Repr

/-- What the transport hands back for one request: either a status code with a
parsed JSON body, or a connectivity failure (timeout, DNS, refused). -/
inductive HttpResult where
  | response (status : Nat) (body : Json)
  | netFailure (kind : NetFailureKind)
deriving Repr

/-- A transport: the external HTTP stack plus the remote server, given as an
oracle from requests to results. -/
def Transport := HttpRequest → HttpResult

/-- Modelled from the spec: outcome classification at the HTTP wrapper
boundary.  2xx succeeds with the parsed body; 401/403 raise the
authentication error; connectivity failures raise the network error; every
other status raises the base error carrying the status. -/
def classifyResult : HttpResult → Except ClientError Json
  | .netFailure kind => .error (.networkError kind)
  | .response status body =>
    if 200 ≤ status ∧ status < 300 then .ok body
    else if status = 401 ∨ status = 403 then .error (.authenticationError status)
    else .error (.omicsAIError status "HTTP error")

/-- The effect of one client operation: run against a transport, it yields a
result (or a classified error) together with the trace of HTTP requests it
issued, in order. -/
def HttpM (α : Type) := Transport → Except ClientError α × List HttpRequest

/-- An operation that issues no request. -/
def HttpM.pure {α : Type} (a : α) : HttpM α := fun _ => (.ok a, [])

/-- An operation that fails locally, before any request. -/
def HttpM.throw {α : Type} (e : ClientError) : HttpM α := fun _ => (.error e, [])

/-- Modelled from the spec: issue exactly one HTTP request, classify the
outcome, and shape a successful body.  No retry is performed. -/
def HttpM.request {α : Type} (req : HttpRequest) (shape : Json → Except ClientError α) :
    HttpM α :=
  fun transport =>
    (match classifyResult (transport req) with
     | .ok body => shape body
     | .error e => .error e,
     [req])

/-- Pure post-processing of an operation result; issues no further request. -/
def HttpM.map {α β : Type} (g : α → β) (m : HttpM α) : HttpM β :=
  fun transport => ((m transport).1.map g, (m transport).2)

/-- Modelled from the spec: fixed path for listing collections. -/
def collectionsPath : String := "/api/collections"

/-- Modelled from the spec: path for listing the tables of a collection. -/
def tablesPath (collection : String) : String :=
  "/api/collections/" ++ collection ++ "/tables"

/-- Modelled from the spec: path for fetching a table schema. -/
def schemaPath (collection table : String) : String :=
  "/api/collections/" ++ collection ++ "/tables/" ++ table ++ "/schema"

/-- Modelled from the spec: path for the POST query endpoint of a table. -/
def queryPath (collection table : String) : String :=
  "/api/collections/" ++ collection ++ "/tables/" ++ table ++ "/query"

/-- Modelled from the spec: count-only variant of the query endpoint. -/
def countPath (collection table : String) : String :=
  queryPath collection table ++ "?count=true"

/-- A GET request of this client: base URL plus path, the client headers, no
body, the configured timeout. -/
def getRequest (c : OmicsAIClient) (path : String) : HttpRequest :=
  { method := "GET"
    url := c.base_url ++ path
    headers := c.headers
    body := none
    timeout := c.timeout }

/-- A POST request of this client carrying a JSON body. -/
def postRequest (c : OmicsAIClient) (path : String) (body : Json) : HttpRequest :=
  { method := "POST"
    url := c.base_url ++ path
    headers := c.headers
    body := some body
    timeout := c.timeout }

/-- Encoding of a caller value into the JSON body. -/
def PyValue.toJson : PyValue → Json
  | .str s => .str s
  | .int n => .num n
  | .float r => .fnum r
  | .bool b => .bool b

/-- Wire encoding of one filter clause. -/
def FilterClause.toJson (c : FilterClause) : Json :=
  .obj [("operation", .str c.operation), ("value", c.value.toJson), ("type", .str c.type)]

/-- Wire encoding of the filter mapping. -/
def filtersToJson (fs : Filters) : Json :=
  .obj (fs.map fun p => (p.1, .arr (p.2.map FilterClause.toJson)))

/-- An optional ordering descriptor for a query. -/
structure OrderBy where
  field : String
  direction : String
deriving DecidableEq, Repr

/-- Modelled from the spec: the JSON body of a query request — the filter
mapping, the pagination fields, and the ordering descriptor when present. -/
def queryBody (filters : Filters) (limit offset : Nat) (order_by : Option OrderBy) : Json :=
  .obj ([("filters", filtersToJson filters),
         ("limit", .num limit),
         ("offset", .num offset)] ++
    (match order_by with
     | some ob => [("orderBy", Json.obj [("field", .str ob.field), ("direction", .str ob.direction)])]
     | none => []))

/-- Modelled from the spec: normalize a list-shaped response — tolerate the
server wrapping the array in a `data` envelope key versus returning it bare. -/
def shapeList : Json → Json
  | .obj fields =>
    match fields.lookup "data" with
    | some v => v
    | none => .obj fields
  | j => j

/-- Modelled from the spec: normalize a query response to the documented
`data`/`pagination` object, wrapping a bare array when necessary. -/
def shapeQuery : Json → Json
  | .arr elems => .obj [("data", .arr elems)]
  | j => j

/-- Extract the `data` rows from a shaped query response. -/
def extractData : Json → Json
  | .obj fields =>
    match fields.lookup "data" with
    | some v => v
    | none => .arr []
  | j => j

/-- Extract the `fields` array from a schema response. -/
def extractFields : Json → Json
  | .obj fields =>
    match fields.lookup "fields" with
    | some v => v
    | none => .arr []
  | j => j

/-- Modelled from the spec: shape a count response into a plain integer —
accept both a bare integer body and an object of the form
`\x7b"count": int\x7d`. -/
def shapeCount : Json → Except ClientError Int
  | .num n => .ok n
  | .obj fields =>
    match fields.lookup "count" with
    | some (.num n) => .ok n
    | _ => .error (.omicsAIError 0 "unexpected count response shape")
  | _ => .error (.omicsAIError 0 "unexpected count response shape")

/-- Modelled from the spec: `list_collections()` — one GET against the fixed
collections path, response normalized to a list. -/
def OmicsAIClient.list_collections (c : OmicsAIClient) : HttpM Json :=
  HttpM.request (getRequest c collectionsPath) (fun j => .ok (shapeList j))

/-- Modelled from the spec: `list_tables(collection)` — one GET against the
collection-parameterized tables path. -/
def OmicsAIClient.list_tables (c : OmicsAIClient) (collection : String) : HttpM Json :=
  HttpM.request (getRequest c (tablesPath collection)) (fun j => .ok (shapeList j))

/-- Modelled from the spec: `get_schema(collection, table)` — one GET against
the schema path, returning the schema object. -/
def OmicsAIClient.get_schema (c : OmicsAIClient) (collection table : String) : HttpM Json :=
  HttpM.request (getRequest c (schemaPath collection table)) (fun j => .ok j)

/-- Modelled from the spec: `get_schema_fields` — `get_schema` followed by
extraction of the fields array; no extra request. -/
def OmicsAIClient.get_schema_fields (c : OmicsAIClient) (collection table : String) :
    HttpM Json :=
  HttpM.map extractFields (c.get_schema collection table)

/-- Modelled from the spec: `query(collection, table, filters, limit, offset,
order_by)` — validate filters locally (fail fast, no request on unknown
operation or type tags), then one POST whose body carries the filter mapping,
limit (default 100), offset (default 0) and optional ordering. -/
def OmicsAIClient.query (c : OmicsAIClient) (collection table : String)
    (filters : Filters) (limit offset : Option Nat) (order_by : Option OrderBy) :
    HttpM Json :=
  if validFilters filters then
    HttpM.request
      (postRequest c (queryPath collection table)
        (queryBody filters (limit.getD DEFAULT_LIMIT) (offset.getD 0) order_by))
      (fun j => .ok (shapeQuery j))
  else
    HttpM.throw (.omicsAIError 0 "invalid filter operation or type")

/-- Modelled from the spec: build one equals-clause per keyword argument, the
value-type tag inferred from the Python type of the value. -/
def inferType : PyValue → String
  | .str _ => "STRING"
  | .int _ => "INTEGER"
  | .float _ => "FLOAT"
  | .bool _ => "BOOLEAN"

/-- Modelled from the spec: the filter mapping `simple_query` builds from its
keyword arguments. -/
def simpleFilters (kwargs : List (String × PyValue)) : Filters :=
  kwargs.map fun p => (p.1, [{ operation := "EQ", value := p.2, type := inferType p.2 }])

/-- Modelled from the spec: `simple_query(collection, table, **kwargs)` —
sugar that builds one equals-clause filter per keyword and delegates to
`query`, returning the rows. -/
def OmicsAIClient.simple_query (c : OmicsAIClient) (collection table : String)
    (kwargs : List (String × PyValue)) : HttpM Json :=
  HttpM.map extractData
    (c.query collection table (simpleFilters kwargs) none none none)

/-- Modelled from the spec: `count(collection, table, filters)` — same body as
a query but against the count-only endpoint, shaped to a plain integer. -/
def OmicsAIClient.count (c : OmicsAIClient) (collection table : String)
    (filters : Filters) : HttpM Int :=
  if validFilters filters then
    HttpM.request
      (postRequest c (countPath collection table)
        (queryBody filters DEFAULT_LIMIT 0 none))
      shapeCount
  else
    HttpM.throw (.omicsAIError 0 "invalid filter operation or type")

/-- Modelled from the spec: module-level convenience function
`list_collections(network)` — constructs an unauthenticated client for the
network and delegates to the client method. -/
def list_collections (network : String) : HttpM Json :=
  (mkClient network none DEFAULT_TIMEOUT).list_collections

/-- Modelled from the spec: module-level `list_tables(network, collection)`. -/
def list_tables (network collection : String) : HttpM Json :=
  (mkClient network none DEFAULT_TIMEOUT).list_tables collection

/-- Modelled from the spec: module-level
`get_schema_fields(network, collection, table)`. -/
def get_schema_fields (network collection table : String) : HttpM Json :=
  (mkClient network none DEFAULT_TIMEOUT).get_schema_fields collection table

/-- Modelled from the spec: module-level
`query(network, collection, table, filters, limit, offset, order_by)`. -/
def query (network collection table : String) (filters : Filters)
    (limit offset : Option Nat) (order_by : Option OrderBy) : HttpM Json :=
  (mkClient network none DEFAULT_TIMEOUT).query collection table filters limit offset order_by

/-- Modelled from the spec: the state-transformer view of a client method —
the result of the call paired with the client object afterwards.  Query and
listing methods only read `self`, so the post-state is the pre-state. -/
def OmicsAIClient.run_list_collections (c : OmicsAIClient) (t : Transport) :
    (Except ClientError Json × List HttpRequest) × OmicsAIClient :=
  (c.list_collections t, c)

/-- Modelled from the spec: state-transformer view of `list_tables`. -/
def OmicsAIClient.run_list_tables (c : OmicsAIClient) (collection : String)
    (t : Transport) : (Except ClientError Json × List HttpRequest) × OmicsAIClient :=
  (c.list_tables collection t, c)

/-- Modelled from the spec: state-transformer view of `get_schema`. -/
def OmicsAIClient.run_get_schema (c : OmicsAIClient) (collection table : String)
    (t : Transport) : (Except ClientError Json × List HttpRequest) × OmicsAIClient :=
  (c.get_schema collection table t, c)

/-- Modelled from the spec: state-transformer view of `get_schema_fields`. -/
def OmicsAIClient.run_get_schema_fields (c : OmicsAIClient) (collection table : String)
    (t : Transport) : (Except ClientError Json × List HttpRequest) × OmicsAIClient :=
  (c.get_schema_fields collection table t, c)

/-- Modelled from the spec: state-transformer view of `query`. -/
def OmicsAIClient.run_query (c : OmicsAIClient) (collection table : String)
    (filters : Filters) (limit offset : Option Nat) (order_by : Option OrderBy)
    (t : Transport) : (Except ClientError Json × List HttpRequest) × OmicsAIClient :=
  (c.query collection table filters limit offset order_by t, c)

/-- Modelled from the spec: state-transformer view of `simple_query`. -/
def OmicsAIClient.run_simple_query (c : OmicsAIClient) (collection table : String)
    (kwargs : List (String × PyValue)) (t : Transport) :
    (Except ClientError Json × List HttpRequest) × OmicsAIClient :=
  (c.simple_query collection table kwargs t, c)

/-- Modelled from the spec: state-transformer view of `count`. -/
def OmicsAIClient.run_count (c : OmicsAIClient) (collection table : String)
    (filters : Filters) (t : Transport) :
    (Except ClientError Int × List HttpRequest) × OmicsAIClient :=
  (c.count collection table filters t, c)

/-- Whether a header list carries an `Authorization` entry. -/
def hasAuthHeader (hs : List (String × String)) : Bool :=
  hs.any (fun p => p.1 == "Authorization")

/-- C1: every known short alias resolves to its documented fully-qualified
domain, every other string passes through unchanged, and a client built from
"hifisolves" equals a client built from "hifisolves.org", so all subsequent
requests share the same base URL. -/
theorem network_resolution_spec :
    resolve_network "hifisolves" = "hifisolves.org" ∧
    resolve_network "neuroscience" = "neuroscience.ai" ∧
    resolve_network "parkinsons" = "cloud.parkinsonsroadmap.org" ∧
    resolve_network "biomedical" = "biomedical.ai" ∧
    (∀ s : String, s ∉ ["hifisolves", "neuroscience", "parkinsons", "biomedical"] →
      resolve_network s = s) ∧
    (∀ (tok : Option String) (tm : Nat),
      mkClient "hifisolves" tok tm = mkClient "hifisolves.org" tok tm) := by
  refine ⟨rfl, rfl, rfl, rfl, ?_, ?_⟩
  · intro s hs
    simp [List.mem_cons] at hs
    have h1 : (s == "hifisolves") = false := by simp [hs.1]
    have h2 : (s == "neuroscience") = false := by simp [hs.2.1]
    have h3 : (s == "parkinsons") = false := by simp [hs.2.2.1]
    have h4 : (s == "biomedical") = false := by simp [hs.2.2.2]
    simp [resolve_network, NETWORKS, List.lookup, h1, h2, h3, h4]
  · intro tok tm
    rfl

/-- Witness for C1 at the unknown alias `example.com` and at concrete
token/timeout arguments. -/
theorem network_resolution_spec_witness :
    ("example.com" ∉ ["hifisolves", "neuroscience", "parkinsons", "biomedical"]) ∧
    resolve_network "example.com" = "example.com" ∧
    mkClient "hifisolves" none 30 = mkClient "hifisolves.org" none 30 :=
  ⟨by decide,
   network_resolution_spec.2.2.2.2.1 "example.com" (by decide),
   network_resolution_spec.2.2.2.2.2 none 30⟩

/-- C2: `simple_query` on keyword arguments `chrom="chr1", pos=12345` builds
exactly the documented filter mapping — one EQ clause per keyword with the
type tag inferred from the Python value type — and, for every client and every
transport, issues exactly one POST request to the query endpoint carrying that
mapping in its body. -/
theorem simple_query_builds_eq_filters :
    (simpleFilters [("chrom", PyValue.str "chr1"), ("pos", PyValue.int 12345)] =
      [("chrom", [⟨"EQ", PyValue.str "chr1", "STRING"⟩]),
       ("pos", [⟨"EQ", PyValue.int 12345, "INTEGER"⟩])]) ∧
    (∀ (c : OmicsAIClient) (t : Transport),
      (c.simple_query "gnomad" "collections.gnomad.variants"
          [("chrom", PyValue.str "chr1"), ("pos", PyValue.int 12345)] t).2 =
        [postRequest c (queryPath "gnomad" "collections.gnomad.variants")
          (queryBody
            [("chrom", [⟨"EQ", PyValue.str "chr1", "STRING"⟩]),
             ("pos", [⟨"EQ", PyValue.int 12345, "INTEGER"⟩])]
            DEFAULT_LIMIT 0 none)]) ∧
    (∀ (c : OmicsAIClient),
      (postRequest c (queryPath "gnomad" "collections.gnomad.variants")
          (queryBody
            [("chrom", [⟨"EQ", PyValue.str "chr1", "STRING"⟩]),
             ("pos", [⟨"EQ", PyValue.int 12345, "INTEGER"⟩])]
            DEFAULT_LIMIT 0 none)).method = "POST") := by
  refine ⟨rfl, ?_, fun c => rfl⟩
  intro c t
  rfl

/-- C3: a 401 or 403 response is classified as the authentication error, never
the base error; instantiated for `list_collections` under a 401-returning
transport and for `query` under a 403-returning transport. -/
theorem auth_error_on_401_403 :
    (∀ (status : Nat) (body : Json), status = 401 ∨ status = 403 →
      classifyResult (.response status body) =
        .error (.authenticationError status)) ∧
    (∀ (c : OmicsAIClient) (body : Json),
      (c.list_collections (fun _ => .response 401 body)).1 =
        .error (.authenticationError 401)) ∧
    (∀ (c : OmicsAIClient) (collection table : String) (filters : Filters)
       (body : Json), validFilters filters = true →
      (c.query collection table filters none none none
          (fun _ => .response 403 body)).1 =
        .error (.authenticationError 403)) := by
  refine ⟨?_, ?_, ?_⟩
  · rintro status body (rfl | rfl) <;> rfl
  · intro c body
    rfl
  · intro c collection table filters body h
    simp [OmicsAIClient.query, h, HttpM.request, classifyResult]

/-- Witness for C3 at status 401, a concrete body, a concrete client and a
concrete (empty, hence valid) filter mapping. -/
theorem auth_error_on_401_403_witness :
    ((401 : Nat) = 401 ∨ (401 : Nat) = 403) ∧
    classifyResult (.response 401 Json.null) =
      .error (.authenticationError 401) ∧
    validFilters [] = true ∧
    ((mkClient "hifisolves" none 30).query "gnomad" "collections.gnomad.variants"
        [] none none none (fun _ => .response 403 Json.null)).1 =
      .error (.authenticationError 403) :=
  ⟨Or.inl rfl,
   auth_error_on_401_403.1 401 Json.null (Or.inl rfl),
   rfl,
   auth_error_on_401_403.2.2 (mkClient "hifisolves" none 30) "gnomad"
     "collections.gnomad.variants" [] Json.null rfl⟩

/-- Helper: a query issues at most one request, whatever the filters. -/
theorem query_trace_le_one (c : OmicsAIClient) (collection table : String)
    (fs : Filters) (lim off : Option Nat) (ob : Option OrderBy) (t : Transport) :
    (c.query collection table fs lim off ob t).2.length ≤ 1 := by
  cases hv : validFilters fs <;>
    simp [OmicsAIClient.query, hv, HttpM.request, HttpM.throw]

/-- Helper: a count issues at most one request, whatever the filters. -/
theorem count_trace_le_one (c : OmicsAIClient) (collection table : String)
    (fs : Filters) (t : Transport) :
    (c.count collection table fs t).2.length ≤ 1 := by
  cases hv : validFilters fs <;>
    simp [OmicsAIClient.count, hv, HttpM.request, HttpM.throw]

/-- C4: connectivity failures (timeout, DNS, refused connection) are
classified as the network error; a failed attempt is surfaced after exactly
one request — no operation ever issues more than one request — and every
request the client builds carries the configured timeout. -/
theorem network_failure_spec :
    (∀ kind, classifyResult (.netFailure kind) =
      .error (ClientError.networkError kind)) ∧
    (∀ (c : OmicsAIClient) (kind : NetFailureKind),
      c.list_collections (fun _ => .netFailure kind) =
        (.error (.networkError kind), [getRequest c collectionsPath])) ∧
    (∀ (c : OmicsAIClient) (t : Transport),
      (c.list_collections t).2.length ≤ 1) ∧
    (∀ (c : OmicsAIClient) (collection : String) (t : Transport),
      (c.list_tables collection t).2.length ≤ 1) ∧
    (∀ (c : OmicsAIClient) (collection table : String) (t : Transport),
      (c.get_schema collection table t).2.length ≤ 1) ∧
    (∀ (c : OmicsAIClient) (collection table : String) (t : Transport),
      (c.get_schema_fields collection table t).2.length ≤ 1) ∧
    (∀ (c : OmicsAIClient) (collection table : String) (fs : Filters)
       (lim off : Option Nat) (ob : Option OrderBy) (t : Transport),
      (c.query collection table fs lim off ob t).2.length ≤ 1) ∧
    (∀ (c : OmicsAIClient) (collection table : String)
       (kwargs : List (String × PyValue)) (t : Transport),
      (c.simple_query collection table kwargs t).2.length ≤ 1) ∧
    (∀ (c : OmicsAIClient) (collection table : String) (fs : Filters)
       (t : Transport),
      (c.count collection table fs t).2.length ≤ 1) ∧
    (∀ (c : OmicsAIClient) (path : String),
      (getRequest c path).timeout = c.timeout) ∧
    (∀ (c : OmicsAIClient) (path : String) (body : Json),
      (postRequest c path body).timeout = c.timeout) := by
  refine ⟨fun kind => rfl, fun c kind => rfl, fun c t => le_refl 1,
    fun c collection t => le_refl 1, fun c collection table t => le_refl 1,
    fun c collection table t => le_refl 1, query_trace_le_one,
    ?_, count_trace_le_one, fun c path => rfl, fun c path body => rfl⟩
  intro c collection table kwargs t
  have h := query_trace_le_one c collection table (simpleFilters kwargs)
    none none none t
  simpa [OmicsAIClient.simple_query, HttpM.map] using h

/-- C5: a successful count call returns a plain integer, both when the server
responds with a bare integer and when it responds with an object of the form
`\x7b"count": int\x7d`. -/
theorem count_returns_plain_integer :
    (∀ n : Int, shapeCount (.num n) = .ok n) ∧
    (∀ n : Int, shapeCount (.obj [("count", .num n)]) = .ok n) ∧
    (∀ (c : OmicsAIClient) (collection table : String) (fs : Filters) (n : Int),
      validFilters fs = true →
      (c.count collection table fs (fun _ => .response 200 (.num n))).1 = .ok n ∧
      (c.count collection table fs
          (fun _ => .response 200 (.obj [("count", .num n)]))).1 = .ok n) := by
  refine ⟨fun n => rfl, fun n => rfl, ?_⟩
  intro c collection table fs n h
  constructor <;>
    simp [OmicsAIClient.count, h, HttpM.request, classifyResult, shapeCount]

/-- Witness for C5: the empty filter mapping is valid and a count of 7 is
returned from both response shapes for a concrete client. -/
theorem count_returns_plain_integer_witness :
    validFilters [] = true ∧
    ((mkClient "hifisolves" none 30).count "gnomad" "collections.gnomad.variants"
        [] (fun _ => .response 200 (.num 7))).1 = .ok 7 ∧
    ((mkClient "hifisolves" none 30).count "gnomad" "collections.gnomad.variants"
        [] (fun _ => .response 200 (.obj [("count", .num 7)]))).1 = .ok 7 := by
  have h := count_returns_plain_integer.2.2 (mkClient "hifisolves" none 30)
    "gnomad" "collections.gnomad.variants" [] 7 rfl
  exact ⟨rfl, h.1, h.2⟩

/-- C6: a query with an empty filter mapping sends an empty filters field (no
row is excluded by filtering) while the pagination fields are still applied,
limit defaulting to 100 and offset defaulting to 0 when the caller omits
them. -/
theorem empty_filters_query_spec :
    (filtersToJson [] = Json.obj []) ∧
    (DEFAULT_LIMIT = 100) ∧
    (queryBody [] DEFAULT_LIMIT 0 none =
      Json.obj [("filters", Json.obj []), ("limit", Json.num 100),
                ("offset", Json.num 0)]) ∧
    (∀ (c : OmicsAIClient) (collection table : String) (t : Transport),
      (c.query collection table [] none none none t).2 =
        [postRequest c (queryPath collection table)
          (queryBody [] DEFAULT_LIMIT 0 none)]) := by
  exact ⟨rfl, rfl, rfl, fun c collection table t => rfl⟩

/-- Helper: when a filter mapping passes validation, every clause of every
field carries a documented operation and a documented value-type tag. -/
theorem validFilters_clause_valid (fs : Filters) (h : validFilters fs = true)
    (field : String) (clauses : List FilterClause) (cl : FilterClause)
    (hf : (field, clauses) ∈ fs) (hc : cl ∈ clauses) :
    cl.operation ∈ FILTER_OPERATIONS ∧ cl.type ∈ VALUE_TYPES := by
  rw [validFilters, List.all_eq_true] at h
  have h1 := h (field, clauses) hf
  rw [List.all_eq_true] at h1
  have h2 := h1 cl hc
  rw [validClause, Bool.and_eq_true] at h2
  exact ⟨by simpa using h2.1, by simpa using h2.2⟩

/-- C7: filters containing a clause whose operation is outside the documented
enumeration, or whose value-type tag is outside the documented enumeration,
make `query` and `count` fail locally with an error and an empty request
trace: no network request is issued. -/
theorem unknown_filter_rejected_locally :
    ∀ (c : OmicsAIClient) (collection table : String) (fs : Filters)
      (lim off : Option Nat) (ob : Option OrderBy) (t : Transport),
      (∃ (field : String) (clauses : List FilterClause) (cl : FilterClause),
        (field, clauses) ∈ fs ∧ cl ∈ clauses ∧
        (cl.operation ∉ FILTER_OPERATIONS ∨ cl.type ∉ VALUE_TYPES)) →
      (c.query collection table fs lim off ob t).2 = [] ∧
      (c.query collection table fs lim off ob t).1 =
        .error (.omicsAIError 0 "invalid filter operation or type") ∧
      (c.count collection table fs t).2 = [] ∧
      (c.count collection table fs t).1 =
        .error (.omicsAIError 0 "invalid filter operation or type") := by
  intro c collection table fs lim off ob t hbad
  have hv : validFilters fs = false := by
    cases hvv : validFilters fs
    · rfl
    · rcases hbad with ⟨field, clauses, cl, hf, hc, hb⟩
      have hok := validFilters_clause_valid fs hvv field clauses cl hf hc
      rcases hb with hb | hb
      · exact absurd hok.1 hb
      · exact absurd hok.2 hb
  refine ⟨?_, ?_, ?_, ?_⟩ <;>
    simp [OmicsAIClient.query, OmicsAIClient.count, hv, HttpM.throw]

/-- Witness for C7: a clause with the unknown operation `FOO` is rejected by
a concrete client before any request is issued. -/
theorem unknown_filter_rejected_locally_witness :
    (∃ (field : String) (clauses : List FilterClause) (cl : FilterClause),
      (field, clauses) ∈
        ([("chrom", [⟨"FOO", PyValue.str "chr1", "STRING"⟩])] : Filters) ∧
      cl ∈ clauses ∧
      (cl.operation ∉ FILTER_OPERATIONS ∨ cl.type ∉ VALUE_TYPES)) ∧
    ((mkClient "hifisolves" none 30).query "gnomad" "collections.gnomad.variants"
        [("chrom", [⟨"FOO", PyValue.str "chr1", "STRING"⟩])] none none none
        (fun _ => .response 200 Json.null)).2 = [] := by
  have hex : ∃ (field : String) (clauses : List FilterClause) (cl : FilterClause),
      (field, clauses) ∈
        ([("chrom", [⟨"FOO", PyValue.str "chr1", "STRING"⟩])] : Filters) ∧
      cl ∈ clauses ∧
      (cl.operation ∉ FILTER_OPERATIONS ∨ cl.type ∉ VALUE_TYPES) :=
    ⟨"chrom", [⟨"FOO", PyValue.str "chr1", "STRING"⟩],
     ⟨"FOO", PyValue.str "chr1", "STRING"⟩, by decide, by decide,
     Or.inl (by decide)⟩
  exact ⟨hex,
    (unknown_filter_rejected_locally (mkClient "hifisolves" none 30) "gnomad"
      "collections.gnomad.variants"
      [("chrom", [⟨"FOO", PyValue.str "chr1", "STRING"⟩])] none none none
      (fun _ => .response 200 Json.null) hex).1⟩

/-- C8: `Content-Type: application/json` is always sent; the
`Authorization: Bearer` header is attached exactly when a token is set;
after `clear_access_token` no Authorization header remains; and every GET and
POST request the client builds uses these headers. -/
theorem auth_header_iff_token :
    ∀ c : OmicsAIClient,
      ("Content-Type", "application/json") ∈ c.headers ∧
      hasAuthHeader c.headers = c.access_token.isSome ∧
      (∀ tok : String,
        ("Authorization", "Bearer " ++ tok) ∈ (c.set_access_token tok).headers) ∧
      hasAuthHeader c.clear_access_token.headers = false ∧
      (∀ path : String, (getRequest c path).headers = c.headers) ∧
      (∀ (path : String) (body : Json),
        (postRequest c path body).headers = c.headers) := by
  intro c
  refine ⟨?_, ?_, ?_, ?_, fun path => rfl, fun path body => rfl⟩
  · simp [OmicsAIClient.headers]
  · cases h : c.access_token <;>
      simp [OmicsAIClient.headers, hasAuthHeader, h]
  · intro tok
    simp [OmicsAIClient.set_access_token, OmicsAIClient.headers]
  · simp [OmicsAIClient.clear_access_token, OmicsAIClient.headers, hasAuthHeader]

/-- C9: every query/listing operation leaves the client object unchanged, and
the token mutators change only the token field, preserving the base URL and
the timeout. -/
theorem local_state_frame :
    (∀ (c : OmicsAIClient) (t : Transport), (c.run_list_collections t).2 = c) ∧
    (∀ (c : OmicsAIClient) (collection : String) (t : Transport),
      (c.run_list_tables collection t).2 = c) ∧
    (∀ (c : OmicsAIClient) (collection table : String) (t : Transport),
      (c.run_get_schema collection table t).2 = c) ∧
    (∀ (c : OmicsAIClient) (collection table : String) (t : Transport),
      (c.run_get_schema_fields collection table t).2 = c) ∧
    (∀ (c : OmicsAIClient) (collection table : String) (fs : Filters)
       (lim off : Option Nat) (ob : Option OrderBy) (t : Transport),
      (c.run_query collection table fs lim off ob t).2 = c) ∧
    (∀ (c : OmicsAIClient) (collection table : String)
       (kwargs : List (String × PyValue)) (t : Transport),
      (c.run_simple_query collection table kwargs t).2 = c) ∧
    (∀ (c : OmicsAIClient) (collection table : String) (fs : Filters)
       (t : Transport), (c.run_count collection table fs t).2 = c) ∧
    (∀ (c : OmicsAIClient) (tok : String),
      (c.set_access_token tok).base_url = c.base_url ∧
      (c.set_access_token tok).timeout = c.timeout ∧
      (c.set_access_token tok).access_token = some tok) ∧
    (∀ c : OmicsAIClient,
      c.clear_access_token.base_url = c.base_url ∧
      c.clear_access_token.timeout = c.timeout ∧
      c.clear_access_token.access_token = none) :=
  ⟨fun _ _ => rfl, fun _ _ _ => rfl, fun _ _ _ _ => rfl,
   fun _ _ _ _ => rfl, fun _ _ _ _ _ _ _ _ => rfl,
   fun _ _ _ _ _ => rfl, fun _ _ _ _ _ => rfl,
   fun _ _ => ⟨rfl, rfl, rfl⟩, fun _ => ⟨rfl, rfl, rfl⟩⟩

/-- C10: each module-level convenience function — `list_collections`,
`list_tables`, `get_schema_fields`, `query` with the network as first
argument — returns, for every argument list, the same operation as the
corresponding method of a client constructed for that network. -/
theorem module_level_functions_delegate :
    (∀ network : String,
      list_collections network =
        (mkClient network none DEFAULT_TIMEOUT).list_collections) ∧
    (∀ network collection : String,
      list_tables network collection =
        (mkClient network none DEFAULT_TIMEOUT).list_tables collection) ∧
    (∀ network collection table : String,
      get_schema_fields network collection table =
        (mkClient network none DEFAULT_TIMEOUT).get_schema_fields collection table) ∧
    (∀ (network collection table : String) (fs : Filters)
       (lim off : Option Nat) (ob : Option OrderBy),
      query network collection table fs lim off ob =
        (mkClient network none DEFAULT_TIMEOUT).query collection table fs
          lim off ob) :=
  ⟨fun _ => rfl, fun _ _ => rfl, fun _ _ _ => rfl,
   fun _ _ _ _ _ _ _ => rfl⟩
